import Mathlib

/-!
Shallow embedding of the opencode-omniroute-auth plugin core:
the model registry cache (src/models.ts, src/constants.ts) and the
credential-aware request gate (src/plugin.ts).

Conventions of the embedding:
- JavaScript numbers that hold epoch millisecond times or TTLs are `Int`.
- Optional / possibly-absent runtime fields are `Option`.
- JavaScript truthiness is modelled explicitly where the code relies on it
  (empty string and 0 are falsy, negative numbers and empty arrays are truthy).
- The in-memory `Map` cache is a function from key strings to optional entries.
- The network is a parameter: `fetchModels` receives the response the single
  HTTP request would have produced, so the cache policy is a pure function of
  (config, apiKey, forceRefresh, cache, now, response).
-/

namespace OmniRoute

/-- A JSON runtime value, for fields whose runtime type may differ from the
declared TypeScript type (the code inspects `typeof model.id`). -/
inductive JVal where
  | jstr (s : String)
  | jnum (n : Int)
  | jbool (b : Bool)
  | jnull
deriving DecidableEq, Repr

/-- Optional pricing pair carried on a model (src/types.ts `pricing`). -/
structure Pricing where
  input : Option Int := none
  output : Option Int := none
deriving DecidableEq, Repr

/-- `OmniRouteModel` from src/types.ts: `id` and `name` are required strings,
all other fields optional. -/
structure OmniRouteModel where
  id : String
  name : String
  description : Option String := none
  contextWindow : Option Int := none
  maxTokens : Option Int := none
  supportsStreaming : Option Bool := none
  supportsVision : Option Bool := none
  supportsTools : Option Bool := none
  pricing : Option Pricing := none
deriving DecidableEq, Repr

/-- A raw element of the backend `data` list, before the filter in
src/models.ts lines 94-97: any field may be absent at runtime and `id`
may be any JSON value. -/
structure RawModel where
  id : Option JVal := none
  name : Option String := none
  description : Option String := none
  contextWindow : Option Int := none
  maxTokens : Option Int := none
  supportsStreaming : Option Bool := none
  supportsVision : Option Bool := none
  supportsTools : Option Bool := none
  pricing : Option Pricing := none
deriving DecidableEq, Repr

/-- `OMNIROUTE_ENDPOINTS.BASE_URL` from src/constants.ts. -/
def OMNIROUTE_BASE_URL : String := "http://localhost:20128/v1"

/-- `OMNIROUTE_ENDPOINTS.MODELS` from src/constants.ts. -/
def OMNIROUTE_MODELS_PATH : String := "/models"

/-- `MODEL_CACHE_TTL` from src/constants.ts: 5 minutes in milliseconds. -/
def MODEL_CACHE_TTL : Int := 5 * 60 * 1000

/-- `REQUEST_TIMEOUT` from src/constants.ts: 30 seconds in milliseconds. -/
def REQUEST_TIMEOUT : Int := 30000

/-- `OMNIROUTE_DEFAULT_MODELS` from src/constants.ts. -/
def OMNIROUTE_DEFAULT_MODELS : List OmniRouteModel :=
  [ { id := "gpt-4o", name := "GPT-4o",
      description := some "GPT-4o model with full capabilities",
      contextWindow := some 128000, maxTokens := some 4096,
      supportsStreaming := some true, supportsVision := some true,
      supportsTools := some true },
    { id := "gpt-4o-mini", name := "GPT-4o Mini",
      description := some "Fast and cost-effective model for everyday tasks",
      contextWindow := some 128000, maxTokens := some 4096,
      supportsStreaming := some true, supportsVision := some true,
      supportsTools := some true },
    { id := "claude-3-5-sonnet", name := "Claude 3.5 Sonnet",
      description := some "Anthropic\x27s Claude 3.5 Sonnet",
      contextWindow := some 200000, maxTokens := some 8192,
      supportsStreaming := some true, supportsVision := some true,
      supportsTools := some true },
    { id := "llama-3-1-405b", name := "Llama 3.1 405B",
      description := some "Meta\x27s Llama 3.1 405B",
      contextWindow := some 128000, maxTokens := some 4096,
      supportsStreaming := some true, supportsVision := some false,
      supportsTools := some true } ]

/-- `OmniRouteConfig` from src/types.ts. -/
structure OmniRouteConfig where
  baseUrl : String
  apiKey : String
  defaultModels : Option (List OmniRouteModel) := none
  modelCacheTtl : Option Int := none
  refreshOnList : Option Bool := none

/-- A cache entry (`ModelCache` in src/models.ts). -/
structure ModelCache where
  models : List OmniRouteModel
  timestamp : Int
deriving DecidableEq, Repr

/-- The module-level `modelCache : Map<string, ModelCache>` as a total
lookup function. -/
abbrev Cache := String → Option ModelCache

/-- The cache at process start: empty. -/
def emptyCache : Cache := fun _ => none

/-- `Map.set` on the cache. -/
def cacheSet (cache : Cache) (key : String) (entry : ModelCache) : Cache :=
  fun k => if k = key then some entry else cache k

/-- JavaScript `config.baseUrl || OMNIROUTE_ENDPOINTS.BASE_URL`
(src/models.ts lines 21 and 57): the empty string is falsy. -/
def effectiveBaseUrl (config : OmniRouteConfig) : String :=
  if config.baseUrl = "" then OMNIROUTE_BASE_URL else config.baseUrl

/-- `getCacheKey` from src/models.ts line 20: backtick-template
`baseUrl:apiKey`. -/
def getCacheKey (config : OmniRouteConfig) (apiKey : String) : String :=
  effectiveBaseUrl config ++ ":" ++ apiKey

/-- The URL `fetchModels` requests (src/models.ts line 58). -/
def modelsUrl (config : OmniRouteConfig) : String :=
  effectiveBaseUrl config ++ OMNIROUTE_MODELS_PATH

/-- The parsed body of the HTTP response, as far as the shape validation at
src/models.ts line 86 inspects it: either not an object, or an object whose
`data` field is an array of raw entries (`none` when `data` is missing or
not an array). A `none` list element is a `null`/`undefined` entry. -/
inductive Body where
  | notObj
  | obj (data : Option (List (Option RawModel)))
deriving DecidableEq, Repr

/-- Outcome of the single HTTP request `fetchModels` makes: a rejected
promise (network error, timeout abort, JSON parse error) or a response with
an `ok` flag and a parsed body. -/
inductive NetResponse where
  | netError
  | response (ok : Bool) (body : Body)
deriving DecidableEq, Repr

/-- The try-block of `fetchModels` up to obtaining the validated `data`
array (src/models.ts lines 66-91): a non-ok status or a shape-validation
failure throws, which the surrounding catch turns into the fallback. -/
def validateResponse : NetResponse → Except Unit (List (Option RawModel))
  | .netError => .error ()
  | .response ok body =>
    if !ok then .error ()
    else
      match body with
      | .notObj => .error ()
      | .obj none => .error ()
      | .obj (some entries) => .ok entries

/-- JavaScript `a || b` for an optional string: absent and empty are falsy. -/
def strOr (a : Option String) (b : String) : String :=
  match a with
  | some s => if s = "" then b else s
  | none => b

/-- JavaScript `a || b` for an optional number: absent and 0 are falsy. -/
def numOr (a : Option Int) (b : Int) : Int :=
  match a with
  | some n => if n = 0 then b else n
  | none => b

/-- `typeof model.id === "string"` (src/models.ts line 96): the id value
when it is a string, `none` otherwise. -/
def idString : Option JVal → Option String
  | some (.jstr s) => some s
  | _ => none

/-- The map step of src/models.ts lines 98-109 for a kept entry whose id
is the string `idStr`. -/
def normalizeEntry (m : RawModel) (idStr : String) : OmniRouteModel :=
  { id := idStr
    name := strOr m.name idStr
    description := some (strOr m.description ("OmniRoute model: " ++ idStr))
    contextWindow := some (numOr m.contextWindow 4096)
    maxTokens := some (numOr m.maxTokens 4096)
    supportsStreaming := some (m.supportsStreaming.getD true)
    supportsVision := some (m.supportsVision.getD false)
    supportsTools := some (m.supportsTools.getD true)
    pricing := m.pricing }

/-- The filter-and-map pipeline of src/models.ts lines 94-109: drop `null`
elements and elements whose `id` is not a string, then apply the defaults. -/
def normalizeModels (entries : List (Option RawModel)) : List OmniRouteModel :=
  entries.filterMap (fun e => e.bind (fun m => (idString m.id).map (normalizeEntry m)))

/-- The effective TTL used by the cache check in `fetchModels`
(src/models.ts lines 43-45): `config.modelCacheTtl && config.modelCacheTtl > 0
? config.modelCacheTtl : MODEL_CACHE_TTL`. -/
def effectiveTtl (config : OmniRouteConfig) : Int :=
  match config.modelCacheTtl with
  | some t => if 0 < t then t else MODEL_CACHE_TTL
  | none => MODEL_CACHE_TTL

/-- The cache check of src/models.ts lines 41-51: when not forcing a
refresh, the cached models if the entry for the key exists and is fresh. -/
def cachedFresh (config : OmniRouteConfig) (apiKey : String) (forceRefresh : Bool)
    (cache : Cache) (now : Int) : Option (List OmniRouteModel) :=
  if forceRefresh then none
  else
    match cache (getCacheKey config apiKey) with
    | some cached => if now - cached.timestamp < effectiveTtl config then some cached.models else none
    | none => none

/-- Result of one `fetchModels` call: the returned models, the cache after
the call, and whether the HTTP request was issued. -/
structure FetchResult where
  models : List OmniRouteModel
  cache : Cache
  networkCalled : Bool

/-- `fetchModels` from src/models.ts lines 33-136. The value `resp` is what
the HTTP request would produce when issued; on the cache-hit path it is
unused and `networkCalled` is false. On success the new model list is
written to the cache; on any failure the catch block returns the stale
entry for the key if one exists, else `config.defaultModels` if supplied
(JavaScript `||`, and an array is always truthy), else the built-in
defaults. -/
def fetchModels (config : OmniRouteConfig) (apiKey : String) (forceRefresh : Bool)
    (cache : Cache) (now : Int) (resp : NetResponse) : FetchResult :=
  match cachedFresh config apiKey forceRefresh cache now with
  | some models => ⟨models, cache, false⟩
  | none =>
    match validateResponse resp with
    | .ok entries =>
      ⟨normalizeModels entries,
       cacheSet cache (getCacheKey config apiKey) ⟨normalizeModels entries, now⟩,
       true⟩
    | .error _ =>
      match cache (getCacheKey config apiKey) with
      | some cached => ⟨cached.models, cache, true⟩
      | none => ⟨config.defaultModels.getD OMNIROUTE_DEFAULT_MODELS, cache, true⟩

/-- `clearModelCache` from src/models.ts lines 143-152. The guard is the
JavaScript truthiness test `if (config && apiKey)`, so an empty-string
apiKey falls through to the clear-everything branch. -/
def clearModelCache (cache : Cache) (config : Option OmniRouteConfig)
    (apiKey : Option String) : Cache :=
  match config, apiKey with
  | some c, some k =>
    if k = "" then fun _ => none
    else fun key => if key = getCacheKey c k then none else cache key
  | _, _ => fun _ => none

/-- `getCachedModels` from src/models.ts lines 160-163. -/
def getCachedModels (config : OmniRouteConfig) (apiKey : String) (cache : Cache) :
    Option (List OmniRouteModel) :=
  (cache (getCacheKey config apiKey)).map (·.models)

/-- The TTL used by `isCacheValid` (src/models.ts line 175):
`config.modelCacheTtl || MODEL_CACHE_TTL`. Only 0 and absence are falsy;
a negative TTL is used as-is. -/
def isCacheValidTtl (config : OmniRouteConfig) : Int :=
  match config.modelCacheTtl with
  | some t => if t = 0 then MODEL_CACHE_TTL else t
  | none => MODEL_CACHE_TTL

/-- `isCacheValid` from src/models.ts lines 171-177. -/
def isCacheValid (config : OmniRouteConfig) (apiKey : String) (cache : Cache)
    (now : Int) : Bool :=
  match cache (getCacheKey config apiKey) with
  | none => false
  | some cached => decide (now - cached.timestamp < isCacheValidTtl config)

/-- `refreshModels` from src/models.ts lines 185-191: it calls
`clearModelCache()` with NO arguments, then `fetchModels` with
forceRefresh = true. -/
def refreshModels (config : OmniRouteConfig) (apiKey : String) (cache : Cache)
    (now : Int) (resp : NetResponse) : FetchResult :=
  fetchModels config apiKey true (clearModelCache cache none none) now resp

/-- Lower-casing of a header name, as the `Headers` machinery normalizes
names case-insensitively. -/
def strLower (s : String) : String := ⟨s.data.map Char.toLower⟩

/-- `p` is a leading substring of `s`. -/
def strStartsWith (s p : String) : Bool := p.data.isPrefixOf s.data

/-- `s.endsWith("/")` specialised to a single character. -/
def strEndsWith (s : String) (c : Char) : Bool := s.data.getLast? == some c

/-- The `HeadersInit` union accepted by `new Headers(...)`: a structured
`Headers` collection, a plain key-value record, or a list of pairs. -/
inductive HeadersInit where
  | headers (fields : List (String × String))
  | record (fields : List (String × String))
  | pairs (fields : List (String × String))
deriving DecidableEq, Repr

/-- `Headers.append`: lower-case the name; combine with an existing value
using a comma separator, else add at the end. -/
def headerAppend (h : List (String × String)) (name value : String) :
    List (String × String) :=
  let n := strLower name
  if h.any (fun p => p.1 = n) then
    h.map (fun p => if p.1 = n then (p.1, p.2 ++ ", " ++ value) else p)
  else h ++ [(n, value)]

/-- `new Headers(init)` (src/plugin.ts line 310): fold every name-value
pair of the initializer, whichever of the three forms it takes, into a
normalized name-value list. -/
def buildHeaders : Option HeadersInit → List (String × String)
  | none => []
  | some (.headers fields) => fields.foldl (fun acc p => headerAppend acc p.1 p.2) []
  | some (.record fields) => fields.foldl (fun acc p => headerAppend acc p.1 p.2) []
  | some (.pairs fields) => fields.foldl (fun acc p => headerAppend acc p.1 p.2) []

/-- `Headers.set`: overwrite the value under the (case-insensitive) name,
adding the header at the end when absent. -/
def headerSet (h : List (String × String)) (name value : String) :
    List (String × String) :=
  let n := strLower name
  if h.any (fun p => p.1 = n) then
    h.map (fun p => if p.1 = n then (p.1, value) else p)
  else h ++ [(n, value)]

/-- `Headers.get`: the value stored under the case-insensitive name. -/
def headerGet (h : List (String × String)) (name : String) : Option String :=
  (h.find? (fun p => p.1 = strLower name)).map (·.2)

/-- `RequestInit`: the call options the host passes to the forwarder. -/
structure RequestInit where
  method : Option String := none
  headers : Option HeadersInit := none
  body : Option String := none
deriving DecidableEq, Repr

/-- `RequestInfo | URL`: a string-like input (string or URL, read via
`toString()`) or a structured `Request` object (read via `.url`,
src/plugin.ts line 294). -/
inductive RequestInput where
  | str (url : String)
  | request (url : String)
deriving DecidableEq, Repr

/-- URL extraction of src/plugin.ts line 294. -/
def requestUrl : RequestInput → String
  | .str u => u
  | .request u => u

/-- The call the forwarder hands to the underlying transport. -/
structure IssuedCall where
  input : RequestInput
  init : Option RequestInit

/-- The base URL the interceptor closes over (src/plugin.ts line 290):
`config.baseUrl || "http://localhost:20128/v1"`. -/
def interceptorBaseUrl (config : OmniRouteConfig) : String :=
  if config.baseUrl = "" then "http://localhost:20128/v1" else config.baseUrl

/-- src/plugin.ts line 298: the base normalized to end in exactly one
trailing slash. -/
def normalizedBase (baseUrl : String) : String :=
  if strEndsWith baseUrl '/' then baseUrl else baseUrl ++ "/"

/-- src/plugin.ts line 299: the match rule of the request gate. -/
def isOmniRouteRequest (baseUrl url : String) : Bool :=
  url == baseUrl || strStartsWith url (normalizedBase baseUrl)

/-- The forwarder returned by `createFetchInterceptor` (src/plugin.ts
lines 292-329), described by the call it issues to the underlying
transport: non-matching calls pass through untouched; matching calls get
their headers rebuilt via `new Headers(init?.headers)` with
`Authorization` and `Content-Type` then set, every other `init` field
spread unchanged. The response is returned unmodified either way. -/
def interceptFetch (config : OmniRouteConfig) (input : RequestInput)
    (init : Option RequestInit) : IssuedCall :=
  if !isOmniRouteRequest (interceptorBaseUrl config) (requestUrl input) then
    ⟨input, init⟩
  else
    ⟨input,
     some { init.getD {} with
            headers := some (.headers
              (headerSet
                (headerSet (buildHeaders (init.bind (·.headers)))
                  "Authorization" ("Bearer " ++ config.apiKey))
                "Content-Type" "application/json")) }⟩

/-- The header list the underlying transport observes for an issued call
(the real transport normalizes whatever it receives the same way). -/
def sentHeaders (c : IssuedCall) : List (String × String) :=
  buildHeaders (c.init.bind (·.headers))

/-- A descriptor that went through the defaulting step: every optional
capability field is populated. -/
def descriptorComplete (m : OmniRouteModel) : Prop :=
  m.description.isSome = true ∧ m.contextWindow.isSome = true ∧
  m.maxTokens.isSome = true ∧ m.supportsStreaming.isSome = true ∧
  m.supportsVision.isSome = true ∧ m.supportsTools.isSome = true

instance (m : OmniRouteModel) : Decidable (descriptorComplete m) := by
  unfold descriptorComplete
  infer_instance

/-- Every models sequence stored in the cache consists of complete
descriptors. -/
def cacheComplete (cache : Cache) : Prop :=
  ∀ key entry, cache key = some entry → ∀ m ∈ entry.models, descriptorComplete m

/-- A concrete configuration used to instantiate theorems. -/
def demoConfig : OmniRouteConfig :=
  { baseUrl := "https://gw", apiKey := "k" }

/-- A concrete cache with one fresh entry under the key of `demoConfig`. -/
def demoCache : Cache :=
  fun key => if key = "https://gw:k" then some ⟨OMNIROUTE_DEFAULT_MODELS, 1000⟩ else none

/-- A concrete cache with entries under two distinct keys. -/
def twoKeyCache : Cache :=
  fun key =>
    if key = "https://gw-a:k1" then some ⟨[{ id := "alpha", name := "Alpha" }], 0⟩
    else if key = "https://gw-b:k2" then some ⟨[{ id := "beta", name := "Beta" }], 0⟩
    else none

/-- The configuration of the first key of `twoKeyCache`. -/
def configA : OmniRouteConfig :=
  { baseUrl := "https://gw-a", apiKey := "k1" }

/-- The configuration of the P7/P8 examples. -/
def exampleGateConfig : OmniRouteConfig :=
  { baseUrl := "https://api.example.com/v1", apiKey := "sk-test" }

/-- `demoConfig` with a negative model cache TTL. -/
def negTtlConfig : OmniRouteConfig :=
  { baseUrl := "https://gw", apiKey := "k", modelCacheTtl := some (-1) }

/-! ## Theorems -/

/-- `Headers.set` stores the given value under the given name. -/
theorem headerGet_headerSet_same (h : List (String × String)) (n v : String) :
    headerGet (headerSet h n v) n = some v := by
  unfold headerGet headerSet
  cases hmem : h.any (fun p => p.1 = strLower n) with
  | true =>
    simp only [hmem, if_true]
    rw [List.find?_map]
    have hq : ((fun p : String × String => decide (p.1 = strLower n)) ∘
        (fun p : String × String => if p.1 = strLower n then (p.1, v) else p)) =
        fun p : String × String => decide (p.1 = strLower n) := by
      funext p
      by_cases hp : p.1 = strLower n <;> simp [hp]
    rw [show (fun p : String × String => decide (p.1 = strLower n)) ∘
        (fun p : String × String => if p.1 = strLower n then (p.1, v) else p) =
        fun p : String × String => decide (p.1 = strLower n) from hq]
    have hs : (List.find? (fun p : String × String => decide (p.1 = strLower n)) h).isSome := by
      rw [List.find?_isSome]
      simpa using List.any_eq_true.1 hmem
    obtain ⟨p₀, hp₀⟩ := Option.isSome_iff_exists.1 hs
    have hp₀1 : p₀.1 = strLower n := by simpa using List.find?_some hp₀
    simp [hp₀, hp₀1]
  | false =>
    simp only [hmem, Bool.false_eq_true, if_false]
    rw [List.find?_append]
    have hnone : List.find? (fun p : String × String => decide (p.1 = strLower n)) h = none := by
      rw [List.find?_eq_none]
      intro x hx
      have := (List.any_eq_false.1 hmem) x hx
      simpa using this
    simp [hnone, List.find?]

/-- `Headers.set` leaves every other name untouched. -/
theorem headerGet_headerSet_other (h : List (String × String)) (n v m : String)
    (hne : strLower m ≠ strLower n) :
    headerGet (headerSet h n v) m = headerGet h m := by
  unfold headerGet headerSet
  cases hmem : h.any (fun p => p.1 = strLower n) with
  | true =>
    simp only [hmem, if_true]
    rw [List.find?_map]
    have hq : ((fun p : String × String => decide (p.1 = strLower m)) ∘
        (fun p : String × String => if p.1 = strLower n then (p.1, v) else p)) =
        fun p : String × String => decide (p.1 = strLower m) := by
      funext p
      by_cases hp : p.1 = strLower n <;> simp [hp]
    rw [show (fun p : String × String => decide (p.1 = strLower m)) ∘
        (fun p : String × String => if p.1 = strLower n then (p.1, v) else p) =
        fun p : String × String => decide (p.1 = strLower m) from hq]
    cases hf : List.find? (fun p : String × String => decide (p.1 = strLower m)) h with
    | none => simp
    | some p₀ =>
      have hp₀1 : p₀.1 = strLower m := by simpa using List.find?_some hf
      have : ¬ p₀.1 = strLower n := by rw [hp₀1]; exact hne
      simp [this]
  | false =>
    simp only [hmem, Bool.false_eq_true, if_false]
    rw [List.find?_append]
    have hone : List.find? (fun p : String × String => decide (p.1 = strLower m))
        [(strLower n, v)] = none := by
      rw [List.find?_eq_none]
      intro x hx
      simp only [List.mem_singleton] at hx
      subst hx
      simpa using fun hc => hne hc.symm
    rw [hone, Option.or_none]

/-- Claim C1: the forwarder treats a call as backend-bound iff its URL
equals the configured base endpoint exactly or starts with the base
normalized to one trailing slash; any non-qualifying call is forwarded to
the underlying transport with the same URL, headers and body, unmodified;
for base `https://api.example.com/v1` the `/v1/chat/completions` call is
intercepted while the `/v1x/other` and `evil.example.com` calls are not. -/
theorem c1_request_gate_matching (config : OmniRouteConfig) (input : RequestInput)
    (init : Option RequestInit)
    (hmiss : isOmniRouteRequest (interceptorBaseUrl config) (requestUrl input) = false) :
    interceptFetch config input init = ⟨input, init⟩ ∧
    (∀ base url, isOmniRouteRequest base url = true ↔
        url = base ∨ strStartsWith url (normalizedBase base) = true) ∧
    isOmniRouteRequest "https://api.example.com/v1"
      "https://api.example.com/v1/chat/completions" = true ∧
    isOmniRouteRequest "https://api.example.com/v1"
      "https://api.example.com/v1x/other" = false ∧
    isOmniRouteRequest "https://api.example.com/v1"
      "https://evil.example.com/v1/anything" = false := by
  refine ⟨?_, ?_, by decide, by decide, by decide⟩
  · unfold interceptFetch
    rw [hmiss]
    rfl
  · intro base url
    unfold isOmniRouteRequest
    simp [Bool.or_eq_true, beq_iff_eq]

/-- Witness for C1 at a cross-origin URL. -/
theorem c1_request_gate_matching_w :
    interceptFetch exampleGateConfig (.str "https://evil.example.com/v1/anything") none =
      ⟨.str "https://evil.example.com/v1/anything", none⟩ :=
  (c1_request_gate_matching exampleGateConfig
    (.str "https://evil.example.com/v1/anything") none (by decide)).1

/-- Claim C2: when the network call fails (error, timeout, bad status or
bad shape), fetchModels resolves through the fallback ladder in order —
stale cache entry for the key, else the configs default models, else the
built-in defaults — and thus always returns a model list. -/
theorem c2_fallback_ladder (config : OmniRouteConfig) (apiKey : String)
    (forceRefresh : Bool) (cache : Cache) (now : Int) (resp : NetResponse)
    (hfail : validateResponse resp = .error ())
    (hmiss : cachedFresh config apiKey forceRefresh cache now = none) :
    (fetchModels config apiKey forceRefresh cache now resp).models =
      (match cache (getCacheKey config apiKey) with
       | some cached => cached.models
       | none =>
         match config.defaultModels with
         | some ds => ds
         | none => OMNIROUTE_DEFAULT_MODELS) ∧
    (fetchModels config apiKey forceRefresh cache now resp).networkCalled = true := by
  unfold fetchModels
  rw [hmiss, hfail]
  cases hc : cache (getCacheKey config apiKey) with
  | some cached => exact ⟨rfl, rfl⟩
  | none =>
    cases hd : config.defaultModels with
    | some ds => exact ⟨by simp [hd, Option.getD], rfl⟩
    | none => exact ⟨by simp [hd, Option.getD], rfl⟩

/-- Witness for C2: empty cache, no config defaults, network down. -/
theorem c2_fallback_ladder_w :
    (fetchModels ⟨"", "k", none, none, none⟩ "k" true emptyCache 0 .netError).models =
      OMNIROUTE_DEFAULT_MODELS ∧
    (fetchModels ⟨"", "k", none, none, none⟩ "k" true emptyCache 0 .netError).networkCalled =
      true :=
  c2_fallback_ladder ⟨"", "k", none, none, none⟩ "k" true emptyCache 0 .netError rfl rfl

/-- Claim C3: with forceRefresh false, an existing entry and
now - timestamp under the effective TTL (modelCacheTtl when positive, else
the 5-minute default), fetchModels returns exactly the cached sequence,
leaves the cache unchanged and performs no network call. -/
theorem c3_cache_hit (config : OmniRouteConfig) (apiKey : String) (cache : Cache)
    (now : Int) (resp : NetResponse) (entry : ModelCache)
    (hentry : cache (getCacheKey config apiKey) = some entry)
    (hfresh : now - entry.timestamp < effectiveTtl config) :
    fetchModels config apiKey false cache now resp = ⟨entry.models, cache, false⟩ := by
  unfold fetchModels cachedFresh
  rw [hentry]
  simp [hfresh]

/-- Witness for C3 at a fresh concrete entry. -/
theorem c3_cache_hit_w :
    fetchModels demoConfig "k" false demoCache 1500 .netError =
      ⟨OMNIROUTE_DEFAULT_MODELS, demoCache, false⟩ :=
  c3_cache_hit demoConfig "k" demoCache 1500 .netError ⟨OMNIROUTE_DEFAULT_MODELS, 1000⟩
    (by decide) (by decide)

/-- Claim C4: a backend entry carrying only a string id synthesizes a
descriptor with name equal to the id, a generated placeholder description,
context window 4096, max tokens 4096, streaming and tools on, vision off;
in particular for the entry with id m1. -/
theorem c4_descriptor_defaults (s : String) :
    normalizeModels [some { id := some (.jstr s) }] =
      [{ id := s, name := s, description := some ("OmniRoute model: " ++ s),
         contextWindow := some 4096, maxTokens := some 4096,
         supportsStreaming := some true, supportsVision := some false,
         supportsTools := some true, pricing := none }] ∧
    normalizeModels [some { id := some (.jstr "m1") }] =
      [{ id := "m1", name := "m1", description := some "OmniRoute model: m1",
         contextWindow := some 4096, maxTokens := some 4096,
         supportsStreaming := some true, supportsVision := some false,
         supportsTools := some true, pricing := none }] :=
  ⟨rfl, rfl⟩

/-- Witness for C4 at the concrete id m1. -/
theorem c4_descriptor_defaults_w :
    normalizeModels [some { id := some (.jstr "m1") }] =
      [{ id := "m1", name := "m1", description := some "OmniRoute model: m1",
         contextWindow := some 4096, maxTokens := some 4096,
         supportsStreaming := some true, supportsVision := some false,
         supportsTools := some true, pricing := none }] :=
  (c4_descriptor_defaults "m1").2

/-- Counterexample to claim C5: the filter keeps any entry whose id is a
string, including the empty string, so a returned descriptor can have an
empty id — the claim that every returned descriptor has a non-empty id is
false for the concrete backend list holding one entry with an empty id. -/
theorem c5_counterexample :
    (fetchModels ⟨"", "k", none, none, none⟩ "k" true emptyCache 0
      (.response true (.obj (some [some { id := some (.jstr "") }])))).models.map (·.id) =
      [""] := by decide

/-- Claim C5 as amended: fetchModels keeps exactly the elements that are
non-null and carry a string id (empty string included) and silently drops
every other element without failing; the ids of the output are exactly the
string ids of the input, in order; for the list m1, no-id, m2 the result
is exactly the descriptors of m1 and m2. -/
theorem c5_invalid_entries_dropped :
    (∀ entries : List (Option RawModel),
      (normalizeModels entries).map (·.id) =
        entries.filterMap (fun e => e.bind (fun m => idString m.id))) ∧
    (fetchModels ⟨"", "k", none, none, none⟩ "k" true emptyCache 0
      (.response true (.obj (some
        [some { id := some (.jstr "m1") },
         some { name := some "no-id" },
         some { id := some (.jstr "m2") }])))).models.map (·.id) = ["m1", "m2"] := by
  constructor
  · intro entries
    induction entries with
    | nil => rfl
    | cons e t ih =>
      cases e with
      | none =>
        simpa [normalizeModels, List.filterMap_cons] using ih
      | some m =>
        cases h : idString m.id with
        | none =>
          simpa [normalizeModels, List.filterMap_cons, h] using ih
        | some s =>
          simp only [normalizeModels, List.filterMap_cons, h, Option.some_bind,
            Option.map_some', List.map_cons, List.cons.injEq]
          exact ⟨rfl, ih⟩
  · decide

/-- Witness for the amended C5 at the three-entry example list. -/
theorem c5_invalid_entries_dropped_w :
    (normalizeModels
      [some { id := some (.jstr "m1") },
       some { name := some "no-id" },
       some { id := some (.jstr "m2") }]).map (fun m => m.id) = ["m1", "m2"] := by
  rw [c5_invalid_entries_dropped.1]
  decide

/-- Counterexample to claim C6: refreshModels calls the cache clear with
no arguments, so it wipes every key, not only the key of its own config
and credential; afterwards the entry under the unrelated second key is
gone, and the refresh result differs from fetchModels with
forceRefresh = true on the untouched cache, because the stale entry it
would have fallen back to was dropped. -/
theorem c6_counterexample :
    twoKeyCache "https://gw-b:k2" = some ⟨[{ id := "beta", name := "Beta" }], 0⟩ ∧
    (refreshModels configA "k1" twoKeyCache 0 .netError).cache "https://gw-b:k2" = none ∧
    (refreshModels configA "k1" twoKeyCache 0 .netError).models ≠
      (fetchModels configA "k1" true twoKeyCache 0 .netError).models := by decide

/-- Claim C6 as amended: refreshModels clears the ENTIRE cache — every
key — and then behaves exactly as fetchModels with forceRefresh = true on
the emptied cache; after the call only the refreshed key can hold an
entry. -/
theorem c6_refresh_clears_everything (config : OmniRouteConfig) (apiKey : String)
    (cache : Cache) (now : Int) (resp : NetResponse) :
    refreshModels config apiKey cache now resp =
      fetchModels config apiKey true emptyCache now resp ∧
    (∀ key, key ≠ getCacheKey config apiKey →
      (refreshModels config apiKey cache now resp).cache key = none) := by
  constructor
  · rfl
  · intro key hk
    unfold refreshModels fetchModels
    cases hv : validateResponse resp with
    | ok entries => simp [cachedFresh, hv, cacheSet, clearModelCache, hk]
    | error u => simp [cachedFresh, hv, clearModelCache]

/-- Witness for the amended C6 at the two-key cache. -/
theorem c6_refresh_clears_everything_w :
    (refreshModels configA "k1" twoKeyCache 0 .netError).cache "https://gw-b:k2" = none :=
  (c6_refresh_clears_everything configA "k1" twoKeyCache 0 .netError).2
    "https://gw-b:k2" (by decide)

/-- Claim C7: for an intercepted call the outgoing header set is built from
the original headers — the structured, record and pair forms are handled by
one uniform normalization — then Authorization is set to the bearer
credential and Content-Type to application/json, overwriting prior values;
every other original header and the original method and body are preserved
in the issued request. -/
theorem c7_header_injection (config : OmniRouteConfig) (input : RequestInput)
    (init : Option RequestInit)
    (hmatch : isOmniRouteRequest (interceptorBaseUrl config) (requestUrl input) = true) :
    ∃ hs : List (String × String),
      interceptFetch config input init =
        ⟨input, some { method := (init.getD {}).method, body := (init.getD {}).body,
                       headers := some (.headers hs) }⟩ ∧
      hs = headerSet (headerSet (buildHeaders (init.bind (·.headers)))
             "Authorization" ("Bearer " ++ config.apiKey)) "Content-Type" "application/json" ∧
      headerGet hs "Authorization" = some ("Bearer " ++ config.apiKey) ∧
      headerGet hs "Content-Type" = some "application/json" ∧
      (∀ name, strLower name ≠ "authorization" → strLower name ≠ "content-type" →
        headerGet hs name = headerGet (buildHeaders (init.bind (·.headers))) name) ∧
      (∀ fields, buildHeaders (some (.headers fields)) = buildHeaders (some (.pairs fields)) ∧
        buildHeaders (some (.record fields)) = buildHeaders (some (.pairs fields))) := by
  refine ⟨headerSet (headerSet (buildHeaders (init.bind (·.headers)))
      "Authorization" ("Bearer " ++ config.apiKey)) "Content-Type" "application/json",
    ?_, rfl, ?_, ?_, ?_, fun fields => ⟨rfl, rfl⟩⟩
  · unfold interceptFetch
    rw [hmatch]
    rfl
  · rw [headerGet_headerSet_other _ _ _ _ (by decide)]
    exact headerGet_headerSet_same _ _ _
  · exact headerGet_headerSet_same _ _ _
  · intro name h1 h2
    rw [headerGet_headerSet_other _ _ _ _
        (by rw [show strLower "Content-Type" = "content-type" from by decide]; exact h2),
      headerGet_headerSet_other _ _ _ _
        (by rw [show strLower "Authorization" = "authorization" from by decide]; exact h1)]

/-- Witness for C7: a qualifying call with a custom X-Trace-Id header keeps
it and gains the Authorization and Content-Type headers. -/
theorem c7_header_injection_w :
    headerGet (sentHeaders (interceptFetch exampleGateConfig
      (.str "https://api.example.com/v1/chat/completions")
      (some { headers := some (.record [("X-Trace-Id", "abc")]) }))) "X-Trace-Id" =
      some "abc" ∧
    headerGet (sentHeaders (interceptFetch exampleGateConfig
      (.str "https://api.example.com/v1/chat/completions")
      (some { headers := some (.record [("X-Trace-Id", "abc")]) }))) "Authorization" =
      some "Bearer sk-test" ∧
    headerGet (sentHeaders (interceptFetch exampleGateConfig
      (.str "https://api.example.com/v1/chat/completions")
      (some { headers := some (.record [("X-Trace-Id", "abc")]) }))) "Content-Type" =
      some "application/json" := by
  obtain ⟨hs, heq, hdef, hauth, hct, hother, huni⟩ :=
    c7_header_injection exampleGateConfig
      (.str "https://api.example.com/v1/chat/completions")
      (some { headers := some (.record [("X-Trace-Id", "abc")]) }) (by decide)
  refine ⟨?_, ?_, ?_⟩ <;> rw [heq, hdef] <;> decide

/-- Counterexample to claim C8: for a negative modelCacheTtl, isCacheValid
does NOT discard the value in favor of the 5-minute default — it uses the
negative TTL as-is, so on a cache entry written at the current instant it
returns false although the claim (entry age 0 is within the defaulted
5-minute TTL) demands true. -/
theorem c8_counterexample :
    ¬ (isCacheValid negTtlConfig "k" demoCache 1000 = true ↔
       ((1000 : Int) - 1000 < MODEL_CACHE_TTL)) := by decide

/-- Claim C8 as amended: isCacheValid returns false when no entry exists
for the key, and otherwise returns true exactly when now minus the entry
timestamp is under the TTL it computes, where only an absent or zero
modelCacheTtl is replaced by the 5-minute default — a nonzero value,
negative included, is used as-is, and with a negative TTL and a
non-future entry the check always returns false. -/
theorem c8_ttl_used_as_is :
    (∀ config apiKey cache now, cache (getCacheKey config apiKey) = none →
      isCacheValid config apiKey cache now = false) ∧
    (∀ config apiKey (cache : Cache) now entry,
      cache (getCacheKey config apiKey) = some entry →
      (isCacheValid config apiKey cache now = true ↔
        now - entry.timestamp < isCacheValidTtl config)) ∧
    (∀ config : OmniRouteConfig,
      config.modelCacheTtl = none ∨ config.modelCacheTtl = some 0 →
      isCacheValidTtl config = MODEL_CACHE_TTL) ∧
    (∀ (config : OmniRouteConfig) t, config.modelCacheTtl = some t → t ≠ 0 →
      isCacheValidTtl config = t) ∧
    (∀ config apiKey (cache : Cache) now entry t,
      cache (getCacheKey config apiKey) = some entry →
      config.modelCacheTtl = some t → t < 0 → entry.timestamp ≤ now →
      isCacheValid config apiKey cache now = false) := by
  refine ⟨?_, ?_, ?_, ?_, ?_⟩
  · intro config apiKey cache now h
    unfold isCacheValid
    rw [h]
  · intro config apiKey cache now entry h
    unfold isCacheValid
    rw [h]
    simp
  · intro config h
    unfold isCacheValidTtl
    rcases h with h | h <;> simp [h]
  · intro config t h ht
    unfold isCacheValidTtl
    rw [h]
    simp [ht]
  · intro config apiKey cache now entry t hc ht htneg hts
    unfold isCacheValid isCacheValidTtl
    rw [hc, ht]
    have h0 : ¬ (t = 0) := by omega
    simp only [h0, if_false]
    simp only [decide_eq_false_iff_not]
    omega

/-- Witness for the amended C8: a missing entry, and a negative TTL on a
present entry. -/
theorem c8_ttl_used_as_is_w :
    isCacheValid demoConfig "k" emptyCache 0 = false ∧
    isCacheValid negTtlConfig "k" demoCache 1000 = false := by
  refine ⟨c8_ttl_used_as_is.1 demoConfig "k" emptyCache 0 rfl, ?_⟩
  exact c8_ttl_used_as_is.2.2.2.2 negTtlConfig "k" demoCache 1000
    ⟨OMNIROUTE_DEFAULT_MODELS, 1000⟩ (-1) (by decide) rfl (by decide) (by decide)

/-- Claim C9: clearModelCache with exactly one argument provided clears
every entry, the same as with both omitted; only with both provided is a
single key removed, every other key left unchanged. -/
theorem c9_single_arg_clears_all :
    (∀ cache config key, clearModelCache cache (some config) none key = none) ∧
    (∀ cache apiKey key, clearModelCache cache none (some apiKey) key = none) ∧
    (∀ cache key, clearModelCache cache none none key = none) ∧
    (∀ (cache : Cache) config apiKey, apiKey ≠ "" →
      clearModelCache cache (some config) (some apiKey) (getCacheKey config apiKey) = none ∧
      ∀ key, key ≠ getCacheKey config apiKey →
        clearModelCache cache (some config) (some apiKey) key = cache key) := by
  refine ⟨fun _ _ _ => rfl, fun _ _ _ => rfl, fun _ _ => rfl, ?_⟩
  intro cache config apiKey hne
  constructor
  · unfold clearModelCache
    simp [hne]
  · intro key hk
    unfold clearModelCache
    simp [hne, hk]

/-- Witness for C9 on a concrete cache. -/
theorem c9_single_arg_clears_all_w :
    clearModelCache demoCache (some demoConfig) none "https://gw:k" = none ∧
    clearModelCache demoCache (some demoConfig) (some "k") "https://gw:k" = none ∧
    clearModelCache demoCache (some demoConfig) (some "k") "other" = demoCache "other" := by
  obtain ⟨h1, h2, h3, h4⟩ := c9_single_arg_clears_all
  refine ⟨h1 demoCache demoConfig _, ?_, ?_⟩
  · have h := (h4 demoCache demoConfig "k" (by decide)).1
    rwa [show getCacheKey demoConfig "k" = "https://gw:k" from by decide] at h
  · exact (h4 demoCache demoConfig "k" (by decide)).2 "other" (by decide)

/-- The defaulting map populates every optional capability field. -/
theorem normalizeEntry_complete (m : RawModel) (s : String) :
    descriptorComplete (normalizeEntry m s) :=
  ⟨rfl, rfl, rfl, rfl, rfl, rfl⟩

/-- Every descriptor in a normalized list is complete. -/
theorem normalizeModels_complete (entries : List (Option RawModel)) :
    ∀ m ∈ normalizeModels entries, descriptorComplete m := by
  intro m hm
  rw [normalizeModels, List.mem_filterMap] at hm
  obtain ⟨e, _, hfe⟩ := hm
  cases e with
  | none => simp at hfe
  | some r =>
    simp only [Option.some_bind] at hfe
    cases hid : idString r.id with
    | none => rw [hid] at hfe; simp at hfe
    | some s =>
      rw [hid] at hfe
      simp only [Option.map_some', Option.some.injEq] at hfe
      rw [← hfe]
      exact normalizeEntry_complete r s

/-- fetchModels writes only complete descriptors into the cache. -/
theorem fetchModels_preserves_complete (config : OmniRouteConfig) (apiKey : String)
    (forceRefresh : Bool) (cache : Cache) (now : Int) (resp : NetResponse)
    (hcc : cacheComplete cache) :
    cacheComplete (fetchModels config apiKey forceRefresh cache now resp).cache := by
  unfold fetchModels
  cases hcf : cachedFresh config apiKey forceRefresh cache now with
  | some models => exact hcc
  | none =>
    cases hv : validateResponse resp with
    | ok entries =>
      intro key entry hkey
      dsimp only at hkey
      unfold cacheSet at hkey
      by_cases hk : key = getCacheKey config apiKey
      · rw [if_pos hk] at hkey
        cases hkey
        exact normalizeModels_complete entries
      · rw [if_neg hk] at hkey
        exact hcc key entry hkey
    | error u =>
      cases hce : cache (getCacheKey config apiKey) with
      | some cached => exact hcc
      | none => exact hcc

/-- clearModelCache never introduces an incomplete entry. -/
theorem clearModelCache_preserves_complete (cache : Cache)
    (config : Option OmniRouteConfig) (apiKey : Option String)
    (hcc : cacheComplete cache) :
    cacheComplete (clearModelCache cache config apiKey) := by
  intro key entry hkey
  unfold clearModelCache at hkey
  cases config with
  | none => simp at hkey
  | some c =>
    cases apiKey with
    | none => simp at hkey
    | some k =>
      dsimp only at hkey
      by_cases hk : k = ""
      · rw [if_pos hk] at hkey
        simp at hkey
      · rw [if_neg hk] at hkey
        by_cases hkk : key = getCacheKey c k
        · rw [if_pos hkk] at hkey
          simp at hkey
        · rw [if_neg hkk] at hkey
          exact hcc key entry hkey

/-- refreshModels leaves only complete entries, for any starting cache. -/
theorem refreshModels_preserves_complete (config : OmniRouteConfig) (apiKey : String)
    (cache : Cache) (now : Int) (resp : NetResponse) :
    cacheComplete (refreshModels config apiKey cache now resp).cache := by
  unfold refreshModels
  apply fetchModels_preserves_complete
  intro key entry hkey
  simp [clearModelCache] at hkey

/-- Claim C10: on a successful fetch the sequence written to the cache is
exactly the sequence returned to the caller, and it already passed the
filter-and-default normalization; every operation serving models from the
cache — a fresh hit, the stale fallback, getCachedModels — therefore
returns descriptors whose optional fields are all populated, and the
invariant is preserved by every cache-mutating operation. -/
theorem c10_cache_normalization_invariant :
    (∀ entries, ∀ m ∈ normalizeModels entries, descriptorComplete m) ∧
    (∀ config apiKey forceRefresh (cache : Cache) now resp entries,
      validateResponse resp = .ok entries →
      cachedFresh config apiKey forceRefresh cache now = none →
      (fetchModels config apiKey forceRefresh cache now resp).cache (getCacheKey config apiKey) =
        some ⟨(fetchModels config apiKey forceRefresh cache now resp).models, now⟩) ∧
    (∀ config apiKey forceRefresh cache now resp, cacheComplete cache →
      cacheComplete (fetchModels config apiKey forceRefresh cache now resp).cache) ∧
    (∀ cache config apiKey, cacheComplete cache →
      cacheComplete (clearModelCache cache config apiKey)) ∧
    (∀ config apiKey cache now resp,
      cacheComplete (refreshModels config apiKey cache now resp).cache) ∧
    (∀ config apiKey (cache : Cache) ms, cacheComplete cache →
      getCachedModels config apiKey cache = some ms → ∀ m ∈ ms, descriptorComplete m) ∧
    (∀ config apiKey forceRefresh (cache : Cache) now ms, cacheComplete cache →
      cachedFresh config apiKey forceRefresh cache now = some ms →
      ∀ m ∈ ms, descriptorComplete m) ∧
    (∀ config apiKey forceRefresh (cache : Cache) now resp entry, cacheComplete cache →
      validateResponse resp = .error () →
      cachedFresh config apiKey forceRefresh cache now = none →
      cache (getCacheKey config apiKey) = some entry →
      (fetchModels config apiKey forceRefresh cache now resp).models = entry.models ∧
      ∀ m ∈ entry.models, descriptorComplete m) := by
  refine ⟨fun entries => normalizeModels_complete entries, ?_,
    fetchModels_preserves_complete, clearModelCache_preserves_complete,
    refreshModels_preserves_complete, ?_, ?_, ?_⟩
  · intro config apiKey forceRefresh cache now resp entries hok hmiss
    unfold fetchModels
    rw [hmiss, hok]
    simp [cacheSet]
  · intro config apiKey cache ms hcc h
    unfold getCachedModels at h
    cases hce : cache (getCacheKey config apiKey) with
    | none => rw [hce] at h; simp at h
    | some entry =>
      rw [hce] at h
      simp only [Option.map_some', Option.some.injEq] at h
      rw [← h]
      exact hcc _ entry hce
  · intro config apiKey forceRefresh cache now ms hcc h
    unfold cachedFresh at h
    cases forceRefresh with
    | true => simp at h
    | false =>
      simp only [Bool.false_eq_true, if_false] at h
      cases hce : cache (getCacheKey config apiKey) with
      | none => rw [hce] at h; simp at h
      | some c =>
        rw [hce] at h
        dsimp only at h
        by_cases hf : now - c.timestamp < effectiveTtl config
        · rw [if_pos hf] at h
          cases h
          exact hcc _ c hce
        · rw [if_neg hf] at h
          simp at h
  · intro config apiKey forceRefresh cache now resp entry hcc hfail hmiss hentry
    unfold fetchModels
    rw [hmiss, hfail, hentry]
    exact ⟨rfl, fun m hm => hcc _ entry hentry m hm⟩

/-- Witness for C10 exercising the success write, the preservation
statements, the fresh-hit serving path and the stale fallback on
concrete caches. -/
theorem c10_cache_normalization_invariant_w :
    (fetchModels demoConfig "k" true emptyCache 0
      (.response true (.obj (some [some { id := some (.jstr "m1") }])))).cache
        (getCacheKey demoConfig "k") =
      some ⟨(fetchModels demoConfig "k" true emptyCache 0
        (.response true (.obj (some [some { id := some (.jstr "m1") }])))).models, 0⟩ ∧
    cacheComplete (fetchModels demoConfig "k" true demoCache 2000 .netError).cache ∧
    cacheComplete (clearModelCache demoCache none none) ∧
    cacheComplete (refreshModels demoConfig "k" demoCache 0 .netError).cache ∧
    (∀ m ∈ OMNIROUTE_DEFAULT_MODELS, descriptorComplete m) ∧
    ((fetchModels demoConfig "k" true demoCache 0 .netError).models =
      OMNIROUTE_DEFAULT_MODELS) := by
  have hdc : cacheComplete demoCache := by
    intro key entry h
    unfold demoCache at h
    by_cases hk : key = "https://gw:k"
    · rw [if_pos hk] at h
      cases h
      decide
    · rw [if_neg hk] at h
      simp at h
  obtain ⟨hnorm, hwrite, hpf, hpc, hpr, hget, hfresh, hstale⟩ :=
    c10_cache_normalization_invariant
  have hst := hstale demoConfig "k" true demoCache 0 .netError
    ⟨OMNIROUTE_DEFAULT_MODELS, 1000⟩ hdc rfl rfl (by decide)
  refine ⟨?_, hpf demoConfig "k" true demoCache 2000 .netError hdc,
    hpc demoCache none none hdc,
    hpr demoConfig "k" demoCache 0 .netError,
    hfresh demoConfig "k" false demoCache 1500 OMNIROUTE_DEFAULT_MODELS hdc (by decide),
    hst.1⟩
  exact hwrite demoConfig "k" true emptyCache 0
    (.response true (.obj (some [some { id := some (.jstr "m1") }])))
    [some { id := some (.jstr "m1") }] rfl rfl

end OmniRoute
